import Mathlib

/-!
Shallow embedding of the QR-donation lifecycle subsystem of the
donation-tracker backend (`api/views.py`, `api/models.py`,
`api/serializers.py`).

Conventions of the embedding:
* Timestamps are `Nat` microseconds since an epoch, matching the
  microsecond resolution of the datetimes produced by `timezone.now()`.
* JSON dictionaries holding supply quantities are association lists
  `List (String × SVal)` where `SVal` mirrors the JSON scalar values
  the code manipulates (int, string, bool).
* Database tables are Lean lists of records; each HTTP action becomes a
  pure function from the state (plus request inputs and the current
  time) to a response value paired with the successor state.  A body
  wrapped in `transaction.atomic()` in the source is a single Lean
  state transition, so a request either produces the full successor
  state or leaves the state untouched.
* The authentication guard (`request.user.is_authenticated`) is outside
  the modelled subsystem: actions take the authenticated user's id.
* HTML sanitisation is delegated to the external `bleach` library
  (declared out of scope by the repository's own documentation); it is
  modelled as the identity on the already-plain text used here.
-/

namespace DonationTracker

/-- Microseconds since the epoch, the resolution of `timezone.now()`. -/
abbrev Micros := Nat

/-- Three hours, in microseconds (`timedelta(hours=3)`). -/
def hours3 : Micros := 3 * 3600 * 1000000

/-- Twenty-four hours, in microseconds (`timedelta(hours=24)`). -/
def hours24 : Micros := 24 * 3600 * 1000000

/-- One second, in microseconds. -/
def usPerSec : Nat := 1000000

/-- A JSON scalar value as stored in the `supply_needs` /
`supplies_confirmed` JSON fields. -/
inductive SVal where
  | int (n : Int)
  | str (s : String)
  | bool (b : Bool)
  deriving DecidableEq, Repr

/-- A JSON object of supply quantities: an association list keyed by the
category name, in insertion order (Python dicts preserve it). -/
abbrev SupplyMap := List (String × SVal)

/-- Python `str(...)` on the scalar values that can appear in a supply
dictionary. -/
def pyStr : SVal → String
  | .int n => toString n
  | .str s => s
  | .bool b => if b then "True" else "False"

/-- Python truthiness of a scalar. -/
def pyTruthy : SVal → Bool
  | .int n => n ≠ 0
  | .str s => s ≠ ""
  | .bool b => b

/-- `bleach.clean(_, strip=True)`.  Sanitisation is delegated to the
external library (out of scope per the repository documentation): on
tag-free text, which is all this development evaluates it on, it is the
identity. -/
def bleachClean (s : String) : String := s

/-- Python `int(...)` applied to a supply-dictionary scalar: integers
pass through, strings are parsed as decimal integers, booleans coerce
to 0/1.  Returns `none` where Python raises `ValueError`/`TypeError`. -/
def pyToInt : SVal → Option Int
  | .int n => some n
  | .str s => s.toInt?
  | .bool b => some (if b then 1 else 0)

/-- The fixed key set accepted in a `supply_needs` payload
(`AnonymousLocationSerializer.validate`). -/
def allowedSupplyFields : List String :=
  ["water", "food", "people_count", "medical_supplies",
   "clothing", "shelter_materials", "other"]

/-- The numeric categories of a `supply_needs` payload. -/
def numericSupplyFields : List String :=
  ["water", "food", "people_count", "medical_supplies",
   "clothing", "shelter_materials"]

/-- Validation of one `supply_needs` entry: numeric categories must
coerce to a non-negative integer (and are stored coerced), the free
text `other` is sanitised, anything else is kept as given. -/
def validateSupplyEntry (kv : String × SVal) : Except String (String × SVal) :=
  if numericSupplyFields.contains kv.1 then
    match pyToInt kv.2 with
    | some n =>
        if n < 0 then .error (kv.1 ++ " must be a non-negative integer")
        else .ok (kv.1, .int n)
    | none => .error (kv.1 ++ " must be a non-negative integer")
  else if kv.1 = "other" then
    .ok (kv.1, .str (bleachClean (pyStr kv.2)))
  else
    .ok kv

/-- `AnonymousLocationSerializer.validate`'s treatment of the
`supply_needs` dictionary: reject unknown keys, coerce the numeric
categories to non-negative integers, sanitise `other`. -/
def validateSupplyNeeds (m : SupplyMap) : Except String SupplyMap :=
  if m.any (fun kv => ¬ allowedSupplyFields.contains kv.1) then
    .error "Invalid fields"
  else
    m.mapM validateSupplyEntry

/-- The value an accepted `supply_needs` entry is stored with: numeric
categories coerced to their integer value, `other` sanitised as text,
anything else unchanged. -/
def coerceSupplyEntry (kv : String × SVal) : String × SVal :=
  if numericSupplyFields.contains kv.1 then
    (kv.1, .int ((pyToInt kv.2).getD 0))
  else if kv.1 = "other" then
    (kv.1, .str (bleachClean (pyStr kv.2)))
  else kv

/-- The `supplies_confirmed` JSON structure of a `DonationRating`
(shape documented on the model). -/
structure SuppliesConfirmed where
  water_received : Option Int := none
  food_received : Option Int := none
  medical_supplies_received : Option Int := none
  clothing_received : Option Int := none
  shelter_materials_received : Option Int := none
  other_items : Option String := none
  all_supplies_received : Option Bool := none
  deriving DecidableEq, Repr

/-- Python truthiness of the `supplies_confirmed` dictionary: non-empty
iff some key is present. -/
def SuppliesConfirmed.nonEmpty (sc : SuppliesConfirmed) : Bool :=
  sc.water_received.isSome || sc.food_received.isSome ||
  sc.medical_supplies_received.isSome || sc.clothing_received.isSome ||
  sc.shelter_materials_received.isSome || sc.other_items.isSome ||
  sc.all_supplies_received.isSome

/-- `DonationRatingSerializer.validate_supplies_confirmed`: sanitise the
free-text `other_items` field when present. -/
def sanitizeSupplies (sc : SuppliesConfirmed) : SuppliesConfirmed :=
  { sc with other_items := sc.other_items.map bleachClean }

/-- The derived "actual supplies delivered" view built in
`DonationRatingViewSet.create`: map each `*_received` field onto its
supply category with default 0, keep only strictly positive
quantities, then append `other_items` under the key `other` when it is
truthy. -/
def actualSupplies (sc : SuppliesConfirmed) : SupplyMap :=
  (([("water", sc.water_received.getD 0),
     ("food", sc.food_received.getD 0),
     ("medical_supplies", sc.medical_supplies_received.getD 0),
     ("clothing", sc.clothing_received.getD 0),
     ("shelter_materials", sc.shelter_materials_received.getD 0)].filter
       (fun kv => 0 < kv.2)).map (fun kv => (kv.1, SVal.int kv.2))) ++
  (match sc.other_items with
   | some s => if s ≠ "" then [("other", SVal.str s)] else []
   | none => [])

/-- A row of the `AnonymousLocation` table (an affected-person request). -/
structure AnonLoc where
  id : Nat
  first_name : String
  last_name : String
  phone : String
  facebook : String := ""
  email : String := ""
  notes : String := ""
  photo : Option String := none
  supply_needs : SupplyMap := []
  latitude : Rat
  longitude : Rat
  accuracy : Option Rat := none
  last_seen : Micros
  is_active : Bool := true
  session_id : String := ""
  qr_code : Option String := none
  donation_received : Bool := false
  donated_by_user : Option Nat := none
  donation_timestamp : Option Micros := none
  next_request_allowed_at : Option Micros := none
  deriving DecidableEq, Repr

/-- A row of the `DonatorOnTheWay` table (a tracking pair). -/
structure TrackRec where
  location_id : Nat
  donator_id : Nat
  marked_at : Micros
  arrived : Bool := false
  is_tracking : Bool := false
  last_location_update : Option Micros := none
  deriving DecidableEq, Repr

/-- A row of the `LocationUpdate` table (an appended position sample);
its owning `DonatorOnTheWay` is identified by the (location, donator)
pair, which is unique on that table. -/
structure LocUpdRec where
  location_id : Nat
  donator_id : Nat
  latitude : Rat
  longitude : Rat
  accuracy : Rat
  timestamp : Micros
  deriving DecidableEq, Repr

/-- A row of the `DonationHistory` table. -/
structure HistRec where
  id : Nat
  donator_id : Nat
  affected_first_name : String
  affected_last_name : String
  affected_phone : String
  latitude : Rat
  longitude : Rat
  supply_needs_fulfilled : SupplyMap
  qr_code : String
  donated_at : Micros
  notes : String := ""
  deriving DecidableEq, Repr

/-- A row of the `DonationRating` table. -/
structure RatingRec where
  id : Nat
  donation_history_id : Nat
  rating : Option Int := none
  comment : String := ""
  supplies_confirmed : SuppliesConfirmed
  rated_at : Micros
  session_id : String := ""
  deriving DecidableEq, Repr

/-- An event published on the `locations` channel group. -/
inductive Ev where
  | qr_scan_note (session_id : String) (donation_history_id : Nat)
      (qr_code : String) (supply_needs_fulfilled : SupplyMap)
  | donator_tracking_update (location_id : Nat) (donator_id : Nat)
      (status : String)
  deriving DecidableEq, Repr

/-- The mutable state of the subsystem: the five tables, the stream of
published events, a fresh-id counter and whether a channel layer is
configured. -/
structure St where
  locations : List AnonLoc := []
  tracks : List TrackRec := []
  locUpdates : List LocUpdRec := []
  histories : List HistRec := []
  ratings : List RatingRec := []
  events : List Ev := []
  nextId : Nat := 1
  channelLayer : Bool := true
  deriving DecidableEq, Repr

/-- `AnonymousLocation.objects.get(qr_code=..., is_active=True)`. -/
def findActiveByQr (st : St) (q : String) : Option AnonLoc :=
  st.locations.find? (fun l => l.qr_code = some q ∧ l.is_active)

/-- Lookup of a location row by primary key. -/
def getLoc (st : St) (lid : Nat) : Option AnonLoc :=
  st.locations.find? (fun l => l.id = lid)

/-- The viewset queryset: active locations seen within the last 24
hours (`get_queryset`), as consulted by `self.get_object()`. -/
def findVisible (st : St) (lid : Nat) (now : Micros) : Option AnonLoc :=
  st.locations.find?
    (fun l => l.id = lid ∧ l.is_active ∧ now ≤ l.last_seen + hours24)

/-- The cool-down filter of `AnonymousLocationViewSet.create`:
a location with this phone, `donation_received=True` and
`next_request_allowed_at` strictly in the future. -/
def restricted (phone? : Option String) (now : Micros) (l : AnonLoc) : Bool :=
  decide (phone? = some l.phone) && l.donation_received &&
    (match l.next_request_allowed_at with
     | some t => decide (now < t)
     | none => false)

/-- `AnonymousLocation.objects.filter(... cool-down ...).first()`. -/
def findRestricted (st : St) (phone? : Option String) (now : Micros) :
    Option AnonLoc :=
  st.locations.find? (restricted phone? now)

/-- `AnonymousLocation.objects.filter(session_id=..., is_active=True).first()`. -/
def findActiveBySession (st : St) (sid : String) : Option AnonLoc :=
  st.locations.find? (fun l => l.session_id = sid ∧ l.is_active)

/-- Lookup of the tracking row for a (location, donator) pair. -/
def findTrack (st : St) (lid did : Nat) : Option TrackRec :=
  st.tracks.find? (fun t => t.location_id = lid ∧ t.donator_id = did)

/-- Lookup of the tracking row for a pair with `is_tracking=True`
(`DonatorOnTheWay.objects.get(..., is_tracking=True)`). -/
def findTrackActive (st : St) (lid did : Nat) : Option TrackRec :=
  st.tracks.find?
    (fun t => t.location_id = lid ∧ t.donator_id = did ∧ t.is_tracking)

/-- Lookup of a donation-history row by primary key. -/
def findHist (st : St) (hid : Nat) : Option HistRec :=
  st.histories.find? (fun h => h.id = hid)

/-- `hasattr(donation_history, 'rating')`: does a rating row reference
this history row? -/
def ratingExists (st : St) (hid : Nat) : Bool :=
  st.ratings.any (fun r => r.donation_history_id = hid)

/-- Python truthiness of an optional string request field. -/
def truthyStr : Option String → Bool
  | some s => s ≠ ""
  | none => false

/-- Python truthiness of an optional numeric id field (`0` is falsy). -/
def truthyNat : Option Nat → Bool
  | some n => n ≠ 0
  | none => false

/-- Python truthiness of an optional numeric coordinate (`0` is falsy). -/
def truthyRat : Option Rat → Bool
  | some q => q ≠ 0
  | none => false

/-- The PH mobile-number pattern on `AnonymousLocation.phone`:
`^(09|\x7b2 slots\x7d...)` — concretely `09` or `+639` followed by
exactly nine decimal digits. -/
def phoneOk (s : String) : Bool :=
  let cs := s.data
  (cs.length = 11 && cs.take 2 = ['0', '9'] &&
    (cs.drop 2).all Char.isDigit) ||
  (cs.length = 13 && cs.take 4 = ['+', '6', '3', '9'] &&
    (cs.drop 4).all Char.isDigit)

/-- The request body of a submit/update-request call, as consumed by
`AnonymousLocationViewSet.create` and `AnonymousLocationSerializer`.
Absent keys are `none`. -/
structure SubmitPayload where
  phone : Option String := none
  session_id : String := ""
  first_name : Option String := none
  last_name : Option String := none
  photo : Option String := none
  latitude : Option Rat := none
  longitude : Option Rat := none
  accuracy : Option Rat := none
  supply_needs : Option SupplyMap := none
  notes : Option String := none
  facebook : Option String := none
  email : Option String := none
  deriving DecidableEq, Repr

/-- `AnonymousLocationSerializer` validation: the explicit `validate`
method (required names and photo on creation, coordinate ranges behind
Python truthiness guards, sanitisation, supply-needs checks) together
with the model-level field requirements that apply on this payload
(required fields on creation, the phone pattern). `isCreate` is
`self.instance is None`. -/
def validatePayload (isCreate : Bool) (p : SubmitPayload) :
    Except String SubmitPayload :=
  if isCreate && !truthyStr p.first_name then
    .error "First name is required"
  else if isCreate && !truthyStr p.last_name then
    .error "Last name is required"
  else if isCreate && !truthyStr p.photo then
    .error "Photo is required to verify your location"
  else if isCreate && p.phone.isNone then
    .error "phone: This field is required"
  else if isCreate && p.latitude.isNone then
    .error "latitude: This field is required"
  else if isCreate && p.longitude.isNone then
    .error "longitude: This field is required"
  else if (match p.phone with
           | some s => !phoneOk s
           | none => false) then
    .error "Phone number must be a valid PH mobile number"
  else if (match p.latitude with
           | some l => l ≠ 0 && (l < -90 || l > 90)
           | none => false) then
    .error "Latitude must be between -90 and 90"
  else if (match p.longitude with
           | some g => g ≠ 0 && (g < -180 || g > 180)
           | none => false) then
    .error "Longitude must be between -180 and 180"
  else
    let notes' := p.notes.map (fun s => if s ≠ "" then bleachClean s else s)
    let facebook' := p.facebook.map (fun s => if s ≠ "" then bleachClean s else s)
    match p.supply_needs with
    | some m =>
        match validateSupplyNeeds m with
        | .error e => .error e
        | .ok m' =>
            .ok { p with supply_needs := some m', notes := notes',
                         facebook := facebook' }
    | none => .ok { p with notes := notes', facebook := facebook' }

/-- A fresh location row built by `serializer.save(last_seen=now)` on
creation (before the QR code is attached). -/
def mkLoc (id : Nat) (p : SubmitPayload) (now : Micros) : AnonLoc :=
  { id := id
    first_name := p.first_name.getD ""
    last_name := p.last_name.getD ""
    phone := p.phone.getD ""
    facebook := p.facebook.getD ""
    email := p.email.getD ""
    notes := p.notes.getD ""
    photo := p.photo
    supply_needs := p.supply_needs.getD []
    latitude := p.latitude.getD 0
    longitude := p.longitude.getD 0
    accuracy := p.accuracy
    last_seen := now
    session_id := p.session_id }

/-- Partial update of an existing row (`partial=True` serializer save):
only the provided fields change, and `last_seen` is refreshed. -/
def applyUpdate (loc : AnonLoc) (p : SubmitPayload) (now : Micros) : AnonLoc :=
  { loc with
    first_name := p.first_name.getD loc.first_name
    last_name := p.last_name.getD loc.last_name
    phone := p.phone.getD loc.phone
    facebook := p.facebook.getD loc.facebook
    email := p.email.getD loc.email
    notes := p.notes.getD loc.notes
    photo := p.photo.orElse (fun _ => loc.photo)
    supply_needs := p.supply_needs.getD loc.supply_needs
    latitude := p.latitude.getD loc.latitude
    longitude := p.longitude.getD loc.longitude
    accuracy := p.accuracy.orElse (fun _ => loc.accuracy)
    last_seen := now }

/-- Outcome of `AnonymousLocationViewSet.create`. -/
inductive CreateResult where
  | cooldownRejected (time_remaining_seconds : Nat) (next_allowed_at : Micros)
  | validationError (msg : String)
  | updated (id : Nat)
  | created (id : Nat)
  deriving DecidableEq, Repr

/-- `AnonymousLocationViewSet.create`: cool-down check by phone, then
create-or-update keyed strictly by session token.  The remaining time
in a cool-down rejection is `int(total_seconds)`, i.e. whole seconds
rounded down.  A fresh creation stores the row and then attaches a
unique QR code. -/
def createReq (st : St) (p : SubmitPayload) (now : Micros) : CreateResult × St :=
  match findRestricted st p.phone now with
  | some r =>
      let t := r.next_request_allowed_at.getD 0
      (.cooldownRejected ((t - now) / usPerSec) t, st)
  | none =>
    let existing :=
      if p.session_id ≠ "" then findActiveBySession st p.session_id else none
    match existing with
    | some loc =>
        match validatePayload false p with
        | .error e => (.validationError e, st)
        | .ok p' =>
            (.updated loc.id,
             { st with locations := st.locations.map (fun l =>
                 if l.id = loc.id then applyUpdate l p' now else l) })
    | none =>
        match validatePayload true p with
        | .error e => (.validationError e, st)
        | .ok p' =>
            let newLoc :=
              { mkLoc st.nextId p' now with
                  qr_code := some ("LOC-" ++ toString st.nextId) }
            (.created st.nextId,
             { st with locations := st.locations ++ [newLoc],
                       nextId := st.nextId + 1 })

/-- `AnonymousLocationViewSet.deactivate`: hard delete of the request
row; the ORM cascades to its `DonatorOnTheWay` children and their
`LocationUpdate` children. -/
def deactivateReq (st : St) (lid : Nat) (now : Micros) : Bool × St :=
  match findVisible st lid now with
  | none => (false, st)
  | some loc =>
      (true,
       { st with
         locations := st.locations.filter (fun l => l.id ≠ loc.id),
         tracks := st.tracks.filter (fun t => t.location_id ≠ loc.id),
         locUpdates := st.locUpdates.filter (fun u => u.location_id ≠ loc.id) })

/-- Append an event to the `locations` channel group when a channel
layer is configured (`if channel_layer:`). -/
def emit (st : St) (e : Ev) : St :=
  if st.channelLayer then { st with events := st.events ++ [e] } else st

/-- Outcome of `AnonymousLocationViewSet.mark_on_the_way`. -/
inductive MarkResult where
  | notFound
  | alreadyReceived
  | marked
  deriving DecidableEq, Repr

/-- `AnonymousLocationViewSet.mark_on_the_way`: reject once a donation
was received, otherwise `get_or_create` the (location, donator)
tracking row — creating it with `arrived=False, is_tracking=True`, or
resetting those flags and `marked_at` on the existing row — and
broadcast a tracking-started update. -/
def markOnTheWay (st : St) (uid lid : Nat) (now : Micros) : MarkResult × St :=
  match findVisible st lid now with
  | none => (.notFound, st)
  | some loc =>
    if loc.donation_received then (.alreadyReceived, st)
    else
      let st' :=
        match findTrack st loc.id uid with
        | some _ =>
            { st with tracks := st.tracks.map (fun t =>
                if t.location_id = loc.id ∧ t.donator_id = uid then
                  { t with arrived := false, is_tracking := true,
                           marked_at := now }
                else t) }
        | none =>
            { st with tracks := st.tracks ++
                [{ location_id := loc.id, donator_id := uid, marked_at := now,
                   arrived := false, is_tracking := true,
                   last_location_update := none }] }
      (.marked, emit st' (.donator_tracking_update loc.id uid "tracking_started"))

/-- Outcome of `AnonymousLocationViewSet.scan_qr_code`. -/
inductive ScanResult where
  | qrRequired
  | notFound
  | alreadyReceived
  | success (donation_history_id : Nat)
  deriving DecidableEq, Repr

/-- `AnonymousLocationViewSet.scan_qr_code`: look up the active request
by QR code, reject if absent/inactive or already fulfilled; otherwise,
inside one transaction: stamp the donation fields and deactivate the
request, mark the donator's tracking row arrived, snapshot a
`DonationHistory` row, and notify the requester's session. -/
def scanQr (st : St) (uid : Nat) (qr? : Option String) (now : Micros) :
    ScanResult × St :=
  match qr? with
  | none => (.qrRequired, st)
  | some q =>
    if q = "" then (.qrRequired, st)
    else
      match findActiveByQr st q with
      | none => (.notFound, st)
      | some loc =>
        if loc.donation_received then (.alreadyReceived, st)
        else
          let hist : HistRec :=
            { id := st.nextId
              donator_id := uid
              affected_first_name := loc.first_name
              affected_last_name := loc.last_name
              affected_phone := loc.phone
              latitude := loc.latitude
              longitude := loc.longitude
              supply_needs_fulfilled := loc.supply_needs
              qr_code := q
              donated_at := now }
          let st' :=
            { st with
              locations := st.locations.map (fun l =>
                if l.id = loc.id then
                  { l with donation_received := true,
                           donated_by_user := some uid,
                           donation_timestamp := some now,
                           next_request_allowed_at := some (now + hours3),
                           is_active := false }
                else l),
              tracks := st.tracks.map (fun t =>
                if t.location_id = loc.id ∧ t.donator_id = uid then
                  { t with arrived := true }
                else t),
              histories := st.histories ++ [hist],
              nextId := st.nextId + 1 }
          (.success hist.id,
           emit st' (.qr_scan_note loc.session_id hist.id q loc.supply_needs))

/-- Outcome of the `location_update` endpoint. -/
inductive LocUpdResult where
  | missingFields
  | noTracking
  | success
  deriving DecidableEq, Repr

/-- The `location_update` view (record-position): requires truthy
`locationId`, `latitude` and `longitude`, requires an `is_tracking`
row for the pair, then appends a `LocationUpdate` sample, refreshes
the tracking row's `last_location_update` and broadcasts the position.
No coordinate-range validation is performed on this path. -/
def locationUpdate (st : St) (uid : Nat) (locationId : Option Nat)
    (latitude longitude accuracy : Option Rat) (now : Micros) :
    LocUpdResult × St :=
  if !(truthyNat locationId && truthyRat latitude && truthyRat longitude) then
    (.missingFields, st)
  else
    let lid := locationId.getD 0
    match findTrackActive st lid uid with
    | none => (.noTracking, st)
    | some _ =>
      let row : LocUpdRec :=
        { location_id := lid, donator_id := uid,
          latitude := latitude.getD 0, longitude := longitude.getD 0,
          accuracy := accuracy.getD 0, timestamp := now }
      let st' :=
        { st with
          locUpdates := st.locUpdates ++ [row],
          tracks := st.tracks.map (fun t =>
            if t.location_id = lid ∧ t.donator_id = uid ∧ t.is_tracking then
              { t with last_location_update := some now }
            else t) }
      (.success, emit st' (.donator_tracking_update lid uid "position"))

/-- Outcome of the `stop_tracking` endpoint. -/
inductive StopResult where
  | missingLocationId
  | notFound
  | stopped
  deriving DecidableEq, Repr

/-- The `stop_tracking` view: requires a truthy `locationId` and an
existing tracking row for the pair (regardless of its active state),
sets `is_tracking=False` and broadcasts a tracking-stopped update. -/
def stopTracking (st : St) (uid : Nat) (locationId : Option Nat) :
    StopResult × St :=
  if !truthyNat locationId then (.missingLocationId, st)
  else
    let lid := locationId.getD 0
    match findTrack st lid uid with
    | none => (.notFound, st)
    | some _ =>
      let st' :=
        { st with tracks := st.tracks.map (fun t =>
            if t.location_id = lid ∧ t.donator_id = uid then
              { t with is_tracking := false }
            else t) }
      (.stopped, emit st' (.donator_tracking_update lid uid "tracking_stopped"))

/-- Outcome of `DonationRatingViewSet.create`. -/
inductive RatingResult where
  | missingFields
  | historyNotFound
  | duplicateRating
  | invalidInput
  | created (id : Nat)
  deriving DecidableEq, Repr

/-- `DonationRatingSerializer.validate_rating`: a rating, when present,
must lie in 1..5. -/
def ratingRangeOk : Option Int → Bool
  | some v => decide (1 ≤ v) && decide (v ≤ 5)
  | none => true

/-- `DonationRatingViewSet.create`: require the history id and session
token, reject an unknown history id, reject a second rating for the
same history row; otherwise store the rating and, when the confirmed
supplies dictionary is non-empty, overwrite the history row's
`supply_needs_fulfilled` with the derived actual-supplies view. -/
def submitRating (st : St) (donation_history_id : Option Nat)
    (session_id : Option String) (rating : Option Int) (comment : String)
    (sc : SuppliesConfirmed) (now : Micros) : RatingResult × St :=
  if !(truthyNat donation_history_id && truthyStr session_id) then
    (.missingFields, st)
  else
    let hid := donation_history_id.getD 0
    match findHist st hid with
    | none => (.historyNotFound, st)
    | some _ =>
      if ratingExists st hid then (.duplicateRating, st)
      else if !ratingRangeOk rating then (.invalidInput, st)
      else
        let sc' := sanitizeSupplies sc
        let row : RatingRec :=
          { id := st.nextId, donation_history_id := hid, rating := rating,
            comment := comment, supplies_confirmed := sc', rated_at := now,
            session_id := session_id.getD "" }
        let st1 :=
          { st with ratings := st.ratings ++ [row], nextId := st.nextId + 1 }
        let st2 :=
          if sc'.nonEmpty then
            { st1 with histories := st1.histories.map (fun hh =>
                if hh.id = hid then
                  { hh with supply_needs_fulfilled := actualSupplies sc' }
                else hh) }
          else st1
        (.created row.id, st2)

/-- The key of a tracking row: its (location, donator) pair. -/
def TrackRec.pairKey (t : TrackRec) : Nat × Nat := (t.location_id, t.donator_id)

/-- The `unique_together ['location', 'donator']` invariant of
`DonatorOnTheWay`: no two tracking rows share a pair. -/
def TracksUnique (st : St) : Prop :=
  st.tracks.Pairwise (fun a b => a.pairKey ≠ b.pairKey)

/-- The number of tracking rows for one (location, donator) pair. -/
def pairCount (st : St) (lid did : Nat) : Nat :=
  (st.tracks.filter (fun t => t.pairKey = (lid, did))).length

namespace Sample

/-- A promised supply-needs dictionary. -/
def needs1 : SupplyMap := [("water", .int 5), ("food", .int 3)]

/-- An open, active request with a QR code. -/
def loc1 : AnonLoc :=
  { id := 1, first_name := "Ana", last_name := "Cruz",
    phone := "09171234567", latitude := 14, longitude := 121,
    last_seen := 1000, session_id := "sess1", qr_code := some "LOC-A",
    supply_needs := needs1 }

/-- Donator 7 is tracking towards `loc1`. -/
def track17 : TrackRec :=
  { location_id := 1, donator_id := 7, marked_at := 500, is_tracking := true }

/-- A state with one open request and one tracking pair. -/
def st1 : St := { locations := [loc1], tracks := [track17], nextId := 2 }

/-- A fulfilled request whose cool-down expires at 10^10 microseconds. -/
def locCool : AnonLoc :=
  { id := 1, first_name := "Ana", last_name := "Cruz",
    phone := "09171234567", latitude := 14, longitude := 121,
    last_seen := 1000, session_id := "sess1", qr_code := some "LOC-A",
    is_active := false, donation_received := true, donated_by_user := some 7,
    donation_timestamp := some 2000,
    next_request_allowed_at := some 10000000000 }

/-- A state in the middle of the cool-down window. -/
def stCool : St := { locations := [locCool], nextId := 2 }

/-- A re-request from a different session with the restricted phone. -/
def pCool : SubmitPayload :=
  { phone := some "09171234567", session_id := "sessX" }

/-- An active request that already received its donation. -/
def locB : AnonLoc :=
  { id := 1, first_name := "Ben", last_name := "Diaz",
    phone := "09170000001", latitude := 14, longitude := 121,
    last_seen := 1000, session_id := "sessB", qr_code := some "LOC-B",
    donation_received := true }

/-- A state whose only request is fulfilled but still active. -/
def stB : St := { locations := [locB], nextId := 2 }

/-- A donation-history row. -/
def hist1 : HistRec :=
  { id := 1, donator_id := 7, affected_first_name := "Ana",
    affected_last_name := "Cruz", affected_phone := "09171234567",
    latitude := 14, longitude := 121, supply_needs_fulfilled := needs1,
    qr_code := "LOC-A", donated_at := 2000 }

/-- A rating already recorded for `hist1`. -/
def rating1 : RatingRec :=
  { id := 2, donation_history_id := 1, rating := some 4,
    supplies_confirmed := {}, rated_at := 3000, session_id := "sess1" }

/-- A state with a history row whose rating already exists. -/
def stRated : St := { histories := [hist1], ratings := [rating1], nextId := 3 }

/-- A state with an unrated history row. -/
def stHist : St := { histories := [hist1], nextId := 2 }

/-- The spec's example confirmation: 5 water and 2 food received. -/
def scExample : SuppliesConfirmed :=
  { water_received := some 5, food_received := some 2 }

/-- A fresh-request payload for session `sA`. -/
def pA : SubmitPayload :=
  { phone := some "09171234567", session_id := "sA",
    first_name := some "Ana", last_name := some "Cruz",
    photo := some "a.jpg", latitude := some 14, longitude := some 121 }

/-- A fresh-request payload for session `sB`, same phone as `pA`. -/
def pB : SubmitPayload :=
  { phone := some "09171234567", session_id := "sB",
    first_name := some "Bea", last_name := some "Cruz",
    photo := some "b.jpg", latitude := some 15, longitude := some 120 }

/-- A partial update payload for session `sess1`. -/
def pUpd : SubmitPayload :=
  { session_id := "sess1", notes := some "ok" }

end Sample

/-- C10: the record-position endpoint rejects any request in which
`locationId`, `latitude` or `longitude` is Python-falsy — in
particular a latitude or longitude of exactly 0, which is a valid
coordinate — with a missing-required-fields error, creating no
`LocationUpdate` row and leaving the state unchanged. -/
theorem locationUpdate_rejects_falsy_inputs (st : St) (uid : Nat)
    (lid : Option Nat) (lat lng acc : Option Rat) (now : Micros)
    (h : truthyNat lid = false ∨ truthyRat lat = false ∨
         truthyRat lng = false) :
    locationUpdate st uid lid lat lng acc now = (.missingFields, st) := by
  unfold locationUpdate
  rcases h with h | h | h <;> simp [h]

/-- Witness for `locationUpdate_rejects_falsy_inputs`: latitude exactly
0 is falsy, so the position report is rejected even though tracking is
active. -/
theorem locationUpdate_rejects_falsy_inputs_witness :
    truthyRat (some 0) = false ∧
    locationUpdate Sample.st1 7 (some 1) (some 0) (some 120) none 1500 =
      (.missingFields, Sample.st1) :=
  ⟨by decide,
   locationUpdate_rejects_falsy_inputs _ _ _ _ _ _ _
     (Or.inr (Or.inl (by decide)))⟩

/-- C5: when a rating already exists for a donation-history row, a
further `submitRating` call for that row always fails with
`DuplicateRating` and leaves the whole state — the first rating and
the history row included — unchanged. -/
theorem submitRating_duplicate_rejected (st : St) (hid : Nat) (sid : String)
    (r : Option Int) (c : String) (sc : SuppliesConfirmed) (now : Micros)
    (h0 : hid ≠ 0) (hs : sid ≠ "") (h : HistRec)
    (hfind : findHist st hid = some h)
    (hex : ratingExists st hid = true) :
    submitRating st (some hid) (some sid) r c sc now =
      (.duplicateRating, st) := by
  unfold submitRating
  simp [truthyNat, truthyStr, h0, hs, hfind, hex]

/-- Witness for `submitRating_duplicate_rejected`: a second rating for
history row 1 is rejected without any state change. -/
theorem submitRating_duplicate_rejected_witness :
    ratingExists Sample.stRated 1 = true ∧
    submitRating Sample.stRated (some 1) (some "sess1") (some 5) ""
      {} 4000 = (.duplicateRating, Sample.stRated) :=
  ⟨rfl,
   submitRating_duplicate_rejected _ 1 "sess1" _ _ _ _
     (by decide) (by decide) Sample.hist1 rfl rfl⟩

/-- C3 counterexample: 500 microseconds before the cool-down expiry —
strictly before `nextRequestAllowedAt` — the re-request for the
restricted phone is rejected, yet the remaining-seconds value carried
by the response is 0, not positive, because the code truncates
`total_seconds()` to whole seconds. -/
theorem createReq_subsecond_cooldown_zero :
    (createReq Sample.stCool Sample.pCool 9999999500).1 =
      .cooldownRejected 0 10000000000 ∧
    (9999999500 : Micros) < 10000000000 := by
  constructor
  · rfl
  · decide

/-- C3 (amended): while a prior fulfilled request for the phone is
inside its cool-down window the submission is rejected, the state is
left unchanged, and the response carries `(t - now)` truncated to
whole seconds — a non-negative value that is positive whenever at
least one full second remains; a record whose `nextRequestAllowedAt`
is at or before the current time never restricts, and when no record
restricts the outcome is never a cool-down rejection. -/
theorem createReq_cooldown (st : St) (p : SubmitPayload) (now : Micros)
    (r : AnonLoc) (t : Micros)
    (hfr : findRestricted st p.phone now = some r)
    (ht : r.next_request_allowed_at = some t) :
    createReq st p now =
      (.cooldownRejected ((t - now) / usPerSec) t, st) ∧
    now < t ∧
    (usPerSec ≤ t - now → 0 < (t - now) / usPerSec) ∧
    (∀ (l : AnonLoc) (t2 : Micros), l.next_request_allowed_at = some t2 →
       t2 ≤ now → restricted p.phone now l = false) ∧
    (∀ (st2 : St) (p2 : SubmitPayload) (now2 : Micros),
       findRestricted st2 p2.phone now2 = none →
       ∀ a b, (createReq st2 p2 now2).1 ≠ .cooldownRejected a b) := by
  have hres : restricted p.phone now r = true := List.find?_some hfr
  have hlt : now < t := by
    simp only [restricted, ht, Bool.and_eq_true, decide_eq_true_eq] at hres
    exact hres.2
  refine ⟨?_, hlt, ?_, ?_, ?_⟩
  · unfold createReq
    rw [hfr]
    simp [ht]
  · intro hsec
    exact Nat.div_pos hsec (by decide)
  · intro l t2 hl hle
    simp [restricted, hl]
    intro _ _
    exact hle
  · intro st2 p2 now2 hnone a b
    unfold createReq
    rw [hnone]
    dsimp only
    split <;> split <;> simp

/-- Witness for `createReq_cooldown`: one hour before expiry the
re-request is rejected with 3600 seconds remaining. -/
theorem createReq_cooldown_witness :
    createReq Sample.stCool Sample.pCool 6400000000 =
      (.cooldownRejected 3600 10000000000, Sample.stCool) ∧
    0 < (3600 : Nat) := by
  refine ⟨?_, by decide⟩
  have h := (createReq_cooldown Sample.stCool Sample.pCool 6400000000
    Sample.locCool 10000000000 rfl rfl).1
  simpa [usPerSec] using h

/-- `emit` only appends to the event stream: locations unchanged. -/
theorem emit_locations (st : St) (e : Ev) :
    (emit st e).locations = st.locations := by
  unfold emit; split <;> rfl

/-- `emit` only appends to the event stream: tracks unchanged. -/
theorem emit_tracks (st : St) (e : Ev) : (emit st e).tracks = st.tracks := by
  unfold emit; split <;> rfl

/-- `emit` only appends to the event stream: histories unchanged. -/
theorem emit_histories (st : St) (e : Ev) :
    (emit st e).histories = st.histories := by
  unfold emit; split <;> rfl

/-- `emit` only appends to the event stream: ratings unchanged. -/
theorem emit_ratings (st : St) (e : Ev) : (emit st e).ratings = st.ratings := by
  unfold emit; split <;> rfl

/-- `emit` only appends to the event stream: position samples unchanged. -/
theorem emit_locUpdates (st : St) (e : Ev) :
    (emit st e).locUpdates = st.locUpdates := by
  unfold emit; split <;> rfl

/-- With a channel layer configured, `emit` appends the event. -/
theorem emit_events_of_channel (st : St) (e : Ev)
    (h : st.channelLayer = true) : (emit st e).events = st.events ++ [e] := by
  unfold emit; simp [h]

/-- The full successor state of a successful QR scan, as one
transition. -/
theorem scanQr_success_state (st : St) (u : Nat) (q : String) (loc : AnonLoc)
    (now : Micros) (hq : q ≠ "")
    (hfind : findActiveByQr st q = some loc)
    (hnr : loc.donation_received = false) :
    scanQr st u (some q) now =
      (.success st.nextId,
       emit
         { st with
           locations := st.locations.map (fun l =>
             if l.id = loc.id then
               { l with donation_received := true,
                        donated_by_user := some u,
                        donation_timestamp := some now,
                        next_request_allowed_at := some (now + hours3),
                        is_active := false }
             else l),
           tracks := st.tracks.map (fun t =>
             if t.location_id = loc.id ∧ t.donator_id = u then
               { t with arrived := true }
             else t),
           histories := st.histories ++
             [{ id := st.nextId, donator_id := u,
                affected_first_name := loc.first_name,
                affected_last_name := loc.last_name,
                affected_phone := loc.phone, latitude := loc.latitude,
                longitude := loc.longitude,
                supply_needs_fulfilled := loc.supply_needs, qr_code := q,
                donated_at := now }],
           nextId := st.nextId + 1 }
         (.qr_scan_note loc.session_id st.nextId q loc.supply_needs)) := by
  unfold scanQr
  simp [hq, hfind, hnr]

/-- C2: `scan_qr_code` fails NotFound when no active request carries
the code, fails AlreadyFulfilled when the matched request has already
received its donation (in both cases with the state unchanged), and
after one successful redemption — the code being unique to the
redeemed request — every later scan of the same code is rejected
NotFound with the post-redemption state unchanged, so no further
`DonationHistory` row is ever created for it. -/
theorem scanQr_rejections (st : St) (u u2 : Nat) (q : String)
    (now now2 : Micros) (hq : q ≠ "") :
    (findActiveByQr st q = none →
       scanQr st u (some q) now = (.notFound, st)) ∧
    (∀ loc, findActiveByQr st q = some loc → loc.donation_received = true →
       scanQr st u (some q) now = (.alreadyReceived, st)) ∧
    (∀ loc, findActiveByQr st q = some loc → loc.donation_received = false →
       (∀ l ∈ st.locations, l.qr_code = some q → l.id = loc.id) →
       scanQr (scanQr st u (some q) now).2 u2 (some q) now2 =
         (.notFound, (scanQr st u (some q) now).2)) := by
  refine ⟨?_, ?_, ?_⟩
  · intro hn
    unfold scanQr
    simp [hq, hn]
  · intro loc hf hd
    unfold scanQr
    simp [hq, hf, hd]
  · intro loc hf hd huniq
    rw [scanQr_success_state st u q loc now hq hf hd]
    have hnone : findActiveByQr (scanQr st u (some q) now).2 q = none := by
      rw [scanQr_success_state st u q loc now hq hf hd]
      unfold findActiveByQr
      rw [emit_locations]
      rw [List.find?_eq_none]
      intro l' hmem
      rcases List.mem_map.1 hmem with ⟨l0, hl0, rfl⟩
      by_cases hid : l0.id = loc.id
      · simp [hid]
      · simp [hid]
        intro hqr
        exact absurd (huniq l0 hl0 hqr) hid
    rw [scanQr_success_state st u q loc now hq hf hd] at hnone
    unfold scanQr
    simp [hq, hnone]

/-- Witness for `scanQr_rejections`: an unknown code, an
already-fulfilled code, and a second scan after a successful
redemption are all rejected without state change. -/
theorem scanQr_rejections_witness :
    scanQr Sample.st1 7 (some "LOC-Z") 2000 = (.notFound, Sample.st1) ∧
    scanQr Sample.stB 7 (some "LOC-B") 2000 =
      (.alreadyReceived, Sample.stB) ∧
    scanQr (scanQr Sample.st1 7 (some "LOC-A") 2000).2 9
        (some "LOC-A") 3000 =
      (.notFound, (scanQr Sample.st1 7 (some "LOC-A") 2000).2) :=
  ⟨(scanQr_rejections Sample.st1 7 9 "LOC-Z" 2000 3000 (by decide)).1 rfl,
   (scanQr_rejections Sample.stB 7 9 "LOC-B" 2000 3000 (by decide)).2.1
     Sample.locB rfl rfl,
   (scanQr_rejections Sample.st1 7 9 "LOC-A" 2000 3000 (by decide)).2.2
     Sample.loc1 rfl rfl (by decide)⟩

/-- C1: a successful redemption of an active, unfulfilled request
performs all its writes in the one transition: the request gets
`donationReceived=true`, the scanning donator, the donation timestamp,
a cool-down expiry of now+3h and `isActive=false`; every tracking row
of that (request, donator) pair is marked arrived while all other
tracking rows survive unchanged; exactly one `DonationHistory` row is
appended snapshotting name, phone, coordinates, promised supplies and
the QR code; a `qr_scan_notification` event is appended; and the
position-sample and rating tables are untouched. -/
theorem scanQr_success_complete (st : St) (u : Nat) (q : String)
    (loc : AnonLoc) (now : Micros) (hq : q ≠ "")
    (hfind : findActiveByQr st q = some loc)
    (hnr : loc.donation_received = false)
    (hget : getLoc st loc.id = some loc)
    (hch : st.channelLayer = true) :
    (scanQr st u (some q) now).1 = .success st.nextId ∧
    getLoc (scanQr st u (some q) now).2 loc.id =
      some { loc with donation_received := true,
                      donated_by_user := some u,
                      donation_timestamp := some now,
                      next_request_allowed_at := some (now + hours3),
                      is_active := false } ∧
    (∀ t ∈ (scanQr st u (some q) now).2.tracks,
       t.location_id = loc.id → t.donator_id = u → t.arrived = true) ∧
    (∀ t ∈ st.tracks, ¬(t.location_id = loc.id ∧ t.donator_id = u) →
       t ∈ (scanQr st u (some q) now).2.tracks) ∧
    (scanQr st u (some q) now).2.histories = st.histories ++
      [{ id := st.nextId, donator_id := u,
         affected_first_name := loc.first_name,
         affected_last_name := loc.last_name,
         affected_phone := loc.phone, latitude := loc.latitude,
         longitude := loc.longitude,
         supply_needs_fulfilled := loc.supply_needs, qr_code := q,
         donated_at := now }] ∧
    (scanQr st u (some q) now).2.events = st.events ++
      [.qr_scan_note loc.session_id st.nextId q loc.supply_needs] ∧
    (scanQr st u (some q) now).2.locUpdates = st.locUpdates ∧
    (scanQr st u (some q) now).2.ratings = st.ratings := by
  rw [scanQr_success_state st u q loc now hq hfind hnr]
  refine ⟨rfl, ?_, ?_, ?_, ?_, ?_, ?_, ?_⟩
  · unfold getLoc
    rw [emit_locations]
    have hcomp :
        (fun l : AnonLoc => decide (l.id = loc.id)) ∘
          (fun l : AnonLoc =>
            if l.id = loc.id then
              { l with donation_received := true,
                       donated_by_user := some u,
                       donation_timestamp := some now,
                       next_request_allowed_at := some (now + hours3),
                       is_active := false }
            else l) =
        (fun l : AnonLoc => decide (l.id = loc.id)) := by
      funext l
      by_cases hid : l.id = loc.id <;> simp [hid]
    simp only [List.find?_map, hcomp]
    unfold getLoc at hget
    rw [hget]
    simp
  · intro t hmem
    rw [emit_tracks] at hmem
    rcases List.mem_map.1 hmem with ⟨t0, _, rfl⟩
    by_cases hc : t0.location_id = loc.id ∧ t0.donator_id = u
    · simp [hc]
    · simp only [if_neg hc]
      intro h1 h2
      exact absurd ⟨h1, h2⟩ hc
  · intro t hmem hnc
    rw [emit_tracks]
    refine List.mem_map.2 ⟨t, hmem, ?_⟩
    rw [if_neg hnc]
  · rw [emit_histories]
  · rw [emit_events_of_channel _ _ (by simpa using hch)]
  · rw [emit_locUpdates]
  · rw [emit_ratings]

/-- Witness for `scanQr_success_complete`: the sample scan succeeds,
creates history row 2 and notifies session `sess1`. -/
theorem scanQr_success_complete_witness :
    (scanQr Sample.st1 7 (some "LOC-A") 2000).1 = .success 2 ∧
    (scanQr Sample.st1 7 (some "LOC-A") 2000).2.events =
      [.qr_scan_note "sess1" 2 "LOC-A" Sample.needs1] := by
  have h := scanQr_success_complete Sample.st1 7 "LOC-A" Sample.loc1 2000
    (by decide) rfl rfl rfl rfl
  exact ⟨h.1, by simpa using h.2.2.2.2.2.1⟩

/-- The full successor state of a successful rating submission. -/
theorem submitRating_success_state (st : St) (hid : Nat) (sid : String)
    (r : Option Int) (c : String) (sc : SuppliesConfirmed) (now : Micros)
    (h : HistRec) (h0 : hid ≠ 0) (hs : sid ≠ "")
    (hfind : findHist st hid = some h)
    (hnone : ratingExists st hid = false)
    (hrok : ratingRangeOk r = true)
    (hne : (sanitizeSupplies sc).nonEmpty = true) :
    submitRating st (some hid) (some sid) r c sc now =
      (.created st.nextId,
       { st with
         ratings := st.ratings ++
           [{ id := st.nextId, donation_history_id := hid, rating := r,
              comment := c, supplies_confirmed := sanitizeSupplies sc,
              rated_at := now, session_id := sid }],
         histories := st.histories.map (fun hh =>
           if hh.id = hid then
             { hh with supply_needs_fulfilled :=
                 actualSupplies (sanitizeSupplies sc) }
           else hh),
         nextId := st.nextId + 1 }) := by
  unfold submitRating
  simp [truthyNat, truthyStr, h0, hs, hfind, hnone, hrok, hne]

/-- C6: a successful rating whose confirmed-supplies payload is
non-empty overwrites the history row's `supplyNeedsFulfilled` with the
derived actual-supplies view (`*_received` fields mapped to their
categories, zero quantities dropped, `other_items` carried over as
`other`), and records the rating row itself. -/
theorem submitRating_overwrites_fulfilled (st : St) (hid : Nat)
    (sid : String) (r : Option Int) (c : String) (sc : SuppliesConfirmed)
    (now : Micros) (h : HistRec) (h0 : hid ≠ 0) (hs : sid ≠ "")
    (hfind : findHist st hid = some h)
    (hnone : ratingExists st hid = false)
    (hrok : ratingRangeOk r = true)
    (hne : (sanitizeSupplies sc).nonEmpty = true) :
    (submitRating st (some hid) (some sid) r c sc now).1 =
      .created st.nextId ∧
    findHist (submitRating st (some hid) (some sid) r c sc now).2 hid =
      some { h with supply_needs_fulfilled :=
               actualSupplies (sanitizeSupplies sc) } ∧
    ({ id := st.nextId, donation_history_id := hid, rating := r,
       comment := c, supplies_confirmed := sanitizeSupplies sc,
       rated_at := now, session_id := sid } : RatingRec) ∈
      (submitRating st (some hid) (some sid) r c sc now).2.ratings := by
  rw [submitRating_success_state st hid sid r c sc now h h0 hs hfind hnone
    hrok hne]
  refine ⟨rfl, ?_, by simp⟩
  unfold findHist
  have hcomp :
      (fun hh : HistRec => decide (hh.id = hid)) ∘
        (fun hh : HistRec =>
          if hh.id = hid then
            { hh with supply_needs_fulfilled :=
                actualSupplies (sanitizeSupplies sc) }
          else hh) =
      (fun hh : HistRec => decide (hh.id = hid)) := by
    funext hh
    by_cases hi : hh.id = hid <;> simp [hi]
  simp only [List.find?_map, hcomp]
  unfold findHist at hfind
  rw [hfind]
  have hideq : h.id = hid := by
    have := List.find?_some hfind
    simpa using this
  simp [hideq]

/-- Witness for `submitRating_overwrites_fulfilled`: the spec's example
— confirming 5 water and 2 food against a promise of 5 water and
3 food — rewrites the ledger entry to water 5, food 2. -/
theorem submitRating_overwrites_fulfilled_witness :
    (submitRating Sample.stHist (some 1) (some "sess1") (some 4) ""
        Sample.scExample 4000).1 = .created 2 ∧
    findHist (submitRating Sample.stHist (some 1) (some "sess1") (some 4) ""
        Sample.scExample 4000).2 1 =
      some { Sample.hist1 with supply_needs_fulfilled :=
               [("water", .int 5), ("food", .int 2)] } := by
  have h := submitRating_overwrites_fulfilled Sample.stHist 1 "sess1"
    (some 4) "" Sample.scExample 4000 Sample.hist1 (by decide) (by decide)
    rfl rfl (by decide) (by decide)
  refine ⟨h.1, ?_⟩
  have h2 := h.2.1
  have hval : actualSupplies (sanitizeSupplies Sample.scExample) =
      [("water", SVal.int 5), ("food", SVal.int 2)] := by decide
  rw [hval] at h2
  exact h2

/-- An entry whose numeric category coerces to a non-negative integer
validates to its coerced form. -/
theorem validateSupplyEntry_ok (kv : String × SVal)
    (hnum : kv.1 ∈ numericSupplyFields →
      ∃ n, pyToInt kv.2 = some n ∧ 0 ≤ n) :
    validateSupplyEntry kv = .ok (coerceSupplyEntry kv) := by
  unfold validateSupplyEntry coerceSupplyEntry
  by_cases hn : kv.1 ∈ numericSupplyFields
  · rcases hnum hn with ⟨n, hpt, hge⟩
    have hnl : ¬ n < 0 := not_lt.2 hge
    simp [hn, hpt, hnl]
  · have hc : numericSupplyFields.contains kv.1 = false := by simpa using hn
    simp only [hc, Bool.false_eq_true, if_false]
    split <;> rfl

/-- Entry-wise validation of a fully coercible dictionary succeeds with
the coerced dictionary. -/
theorem mapM_validateSupplyEntry (m : SupplyMap)
    (hnum : ∀ kv ∈ m, kv.1 ∈ numericSupplyFields →
      ∃ n, pyToInt kv.2 = some n ∧ 0 ≤ n) :
    m.mapM validateSupplyEntry = .ok (m.map coerceSupplyEntry) := by
  induction m with
  | nil => rfl
  | cons kv t ih =>
      rw [List.mapM_cons, validateSupplyEntry_ok kv (hnum kv (by simp)),
        ih (fun kv2 h2 => hnum kv2 (by simp [h2]))]
      rfl

/-- Coercion preserves keys, so lookups against the validated
dictionary are value-wise coerced lookups against the submission. -/
theorem lookup_map_coerce (m : SupplyMap) (k : String) :
    (m.map coerceSupplyEntry).lookup k =
      (m.lookup k).map (fun v => (coerceSupplyEntry (k, v)).2) := by
  induction m with
  | nil => rfl
  | cons kv t ih =>
      obtain ⟨a, b⟩ := kv
      have hpair : coerceSupplyEntry (a, b) =
          (a, (coerceSupplyEntry (a, b)).2) := by
        unfold coerceSupplyEntry
        split
        · rfl
        · split <;> rfl
      rw [List.map_cons, hpair, List.lookup_cons, List.lookup_cons]
      by_cases hk : (k == a)
      · have hka : k = a := eq_of_beq hk
        subst hka
        simp
      · simp only [hk]
        exact ih

/-- When every numeric value is already an integer, validation leaves
the numeric lookups untouched (round-trip). -/
theorem lookup_coerce_int (m : SupplyMap) (k : String)
    (hint : ∀ kv ∈ m, kv.1 ∈ numericSupplyFields → ∃ n, kv.2 = SVal.int n)
    (hk : k ∈ numericSupplyFields) :
    (m.map coerceSupplyEntry).lookup k = m.lookup k := by
  induction m with
  | nil => rfl
  | cons kv t ih =>
      obtain ⟨a, b⟩ := kv
      have hpair : coerceSupplyEntry (a, b) =
          (a, (coerceSupplyEntry (a, b)).2) := by
        unfold coerceSupplyEntry
        split
        · rfl
        · split <;> rfl
      rw [List.map_cons, hpair, List.lookup_cons, List.lookup_cons]
      by_cases hka : (k == a)
      · have hk2 : k = a := eq_of_beq hka
        subst hk2
        rcases hint (k, b) (by simp) hk with ⟨n, hb⟩
        subst hb
        simp [coerceSupplyEntry, hk, pyToInt]
      · simp only [hka]
        exact ih (fun kv2 h2 hn2 => hint kv2 (by simp [h2]) hn2)

/-- C7: a `supplyNeeds` payload containing any key outside the fixed
category set is rejected; a payload whose numeric fields all coerce to
non-negative integers is accepted, the stored numeric category values
are exactly the coerced submitted ones, and when the submission's
numeric values are already integers the fetch returns them identical
(round-trip). -/
theorem validateSupplyNeeds_spec (m : SupplyMap) :
    ((∃ kv ∈ m, kv.1 ∉ allowedSupplyFields) →
       ∃ e, validateSupplyNeeds m = .error e) ∧
    ((∀ kv ∈ m, kv.1 ∈ allowedSupplyFields) →
     (∀ kv ∈ m, kv.1 ∈ numericSupplyFields →
        ∃ n, pyToInt kv.2 = some n ∧ 0 ≤ n) →
     ∃ m', validateSupplyNeeds m = .ok m' ∧
       (∀ k ∈ numericSupplyFields,
          m'.lookup k =
            (m.lookup k).map (fun v => SVal.int ((pyToInt v).getD 0))) ∧
       ((∀ kv ∈ m, kv.1 ∈ numericSupplyFields → ∃ n, kv.2 = SVal.int n) →
          ∀ k ∈ numericSupplyFields, m'.lookup k = m.lookup k)) := by
  constructor
  · rintro ⟨kv, hmem, hbad⟩
    refine ⟨"Invalid fields", ?_⟩
    unfold validateSupplyNeeds
    have hany : m.any (fun kv => ¬ allowedSupplyFields.contains kv.1) = true := by
      refine List.any_eq_true.2 ⟨kv, hmem, ?_⟩
      simpa using hbad
    rw [hany]
    rfl
  · intro hall hnum
    have hany : m.any (fun kv => ¬ allowedSupplyFields.contains kv.1) = false := by
      rw [List.any_eq_false]
      intro kv hmem
      simpa using hall kv hmem
    refine ⟨m.map coerceSupplyEntry, ?_, ?_, ?_⟩
    · unfold validateSupplyNeeds
      rw [hany]
      simp only [Bool.false_eq_true, if_false]
      exact mapM_validateSupplyEntry m hnum
    · intro k hk
      rw [lookup_map_coerce]
      have hcon : numericSupplyFields.contains k = true := by simpa using hk
      cases hl : m.lookup k with
      | none => rfl
      | some v => simp [coerceSupplyEntry, hk]
    · intro hint k hk
      exact lookup_coerce_int m k hint hk

/-- Witness for `validateSupplyNeeds_spec`: a payload with the unknown
key `fuel` is rejected; the integer payload water 5, food 2 is
accepted and its numeric categories read back unchanged. -/
theorem validateSupplyNeeds_spec_witness :
    (∃ e, validateSupplyNeeds [("water", .int 5), ("fuel", .int 1)] =
       .error e) ∧
    (∃ m', validateSupplyNeeds [("water", .int 5), ("food", .int 2)] =
       .ok m' ∧ m'.lookup "water" = some (.int 5) ∧
       m'.lookup "food" = some (.int 2)) := by
  constructor
  · exact (validateSupplyNeeds_spec [("water", .int 5), ("fuel", .int 1)]).1
      ⟨("fuel", .int 1), by decide⟩
  · have hcoerce : ∀ kv ∈ [(("water" : String), SVal.int 5),
        (("food" : String), SVal.int 2)],
        kv.1 ∈ numericSupplyFields →
          ∃ n, pyToInt kv.2 = some n ∧ 0 ≤ n := by
      intro kv hv _
      simp only [List.mem_cons, List.not_mem_nil, or_false] at hv
      rcases hv with h | h <;> subst h
      · exact ⟨5, rfl, by decide⟩
      · exact ⟨2, rfl, by decide⟩
    have hints : ∀ kv ∈ [(("water" : String), SVal.int 5),
        (("food" : String), SVal.int 2)],
        kv.1 ∈ numericSupplyFields → ∃ n, kv.2 = SVal.int n := by
      intro kv hv _
      simp only [List.mem_cons, List.not_mem_nil, or_false] at hv
      rcases hv with h | h <;> subst h
      · exact ⟨5, rfl⟩
      · exact ⟨2, rfl⟩
    obtain ⟨m', hok, -, hrt⟩ :=
      (validateSupplyNeeds_spec [("water", .int 5), ("food", .int 2)]).2
        (by decide) hcoerce
    refine ⟨m', hok, ?_, ?_⟩
    · rw [hrt hints "water" (by decide)]
      decide
    · rw [hrt hints "food" (by decide)]
      decide

/-- C8 counterexample: the record-position endpoint accepts latitude
95 — outside [-90, 90] — with no validation error, and stores the
out-of-range sample. -/
theorem locationUpdate_accepts_out_of_range :
    (locationUpdate Sample.st1 7 (some 1) (some 95) (some 120) none
        1500).1 = .success ∧
    (locationUpdate Sample.st1 7 (some 1) (some 95) (some 120) none
        1500).2.locUpdates =
      [{ location_id := 1, donator_id := 7, latitude := 95,
         longitude := 120, accuracy := 0, timestamp := 1500 }] ∧
    (90 : Rat) < 95 := by
  refine ⟨rfl, rfl, by norm_num⟩

/-- C8 (amended): the request-submission serializer rejects a non-zero
latitude outside [-90, 90] and a non-zero longitude outside
[-180, 180] on both creation and update; the record-position endpoint,
however, performs no range validation — with active tracking it
accepts any non-zero coordinates and appends the sample. -/
theorem coordinate_range_validation (b : Bool) (p : SubmitPayload)
    (st : St) (uid lid : Nat) (l g : Rat) (acc : Option Rat) (now : Micros)
    (t0 : TrackRec) :
    (∀ lv : Rat, p.latitude = some lv → (lv < -90 ∨ 90 < lv) →
       ∃ e, validatePayload b p = .error e) ∧
    (∀ gv : Rat, p.longitude = some gv → (gv < -180 ∨ 180 < gv) →
       ∃ e, validatePayload b p = .error e) ∧
    (lid ≠ 0 → l ≠ 0 → g ≠ 0 →
     findTrackActive st lid uid = some t0 →
     (locationUpdate st uid (some lid) (some l) (some g) acc now).1 =
       .success ∧
     ({ location_id := lid, donator_id := uid, latitude := l,
        longitude := g, accuracy := acc.getD 0,
        timestamp := now } : LocUpdRec) ∈
       (locationUpdate st uid (some lid) (some l) (some g) acc
           now).2.locUpdates) := by
  refine ⟨?_, ?_, ?_⟩
  · intro lv hlv hout
    have hnz : lv ≠ 0 := by
      rcases hout with h | h <;>
        · intro he
          rw [he] at h
          norm_num at h
    have hcond : (match p.latitude with
        | some lv2 => lv2 ≠ 0 && (lv2 < -90 || lv2 > 90)
        | none => false) = true := by
      rw [hlv]
      simp only [Bool.and_eq_true, decide_eq_true_eq, Bool.or_eq_true]
      exact ⟨by simpa using hnz, by rcases hout with h | h
                                    · exact Or.inl (by simpa using h)
                                    · exact Or.inr (by simpa using h)⟩
    unfold validatePayload
    repeat' split
    all_goals first
      | exact ⟨_, rfl⟩
      | exact absurd hcond (by assumption)
  · intro gv hgv hout
    have hnz : gv ≠ 0 := by
      rcases hout with h | h <;>
        · intro he
          rw [he] at h
          norm_num at h
    have hcond : (match p.longitude with
        | some gv2 => gv2 ≠ 0 && (gv2 < -180 || gv2 > 180)
        | none => false) = true := by
      rw [hgv]
      simp only [Bool.and_eq_true, decide_eq_true_eq, Bool.or_eq_true]
      exact ⟨by simpa using hnz, by rcases hout with h | h
                                    · exact Or.inl (by simpa using h)
                                    · exact Or.inr (by simpa using h)⟩
    unfold validatePayload
    repeat' split
    all_goals first
      | exact ⟨_, rfl⟩
      | exact absurd hcond (by assumption)
  · intro hlid hl hg htrack
    unfold locationUpdate
    simp only [truthyNat, truthyRat, hlid, hl, hg]
    simp only [decide_not, ne_eq, decide_eq_true_eq]
    simp [hlid, hl, hg, emit_locUpdates, htrack]

/-- Witness for `coordinate_range_validation`: latitude 95 is rejected
by the request serializer, yet accepted by the record-position
endpoint while tracking is active. -/
theorem coordinate_range_validation_witness :
    (∃ e, validatePayload true { Sample.pA with latitude := some 95 } =
       .error e) ∧
    (locationUpdate Sample.st1 7 (some 1) (some 95) (some 120) none
        1500).1 = .success := by
  have h := coordinate_range_validation true
    { Sample.pA with latitude := some 95 } Sample.st1 7 1 95 120 none 1500
    Sample.track17
  exact ⟨h.1 95 rfl (Or.inr (by norm_num)),
         (h.2.2 (by decide) (by norm_num) (by norm_num) rfl).1⟩

/-- Stripping one rejection guard off a validation chain that
succeeded. -/
theorem strip_error_ite {α : Type} {c : Prop} [Decidable c] {e : String}
    {x : Except String α} {v : α}
    (h : (if c then Except.error e else x) = .ok v) : x = .ok v := by
  by_cases hc : c
  · rw [if_pos hc] at h
    exact Except.noConfusion h
  · rwa [if_neg hc] at h

theorem validatePayload_ok_fields (b : Bool) (p p' : SubmitPayload)
    (h : validatePayload b p = .ok p') :
    p'.phone = p.phone ∧ p'.session_id = p.session_id := by
  unfold validatePayload at h
  have h9 := strip_error_ite (strip_error_ite (strip_error_ite
    (strip_error_ite (strip_error_ite (strip_error_ite (strip_error_ite
    (strip_error_ite (strip_error_ite h))))))))
  clear h
  cases hm : p.supply_needs with
  | none =>
      rw [hm] at h9
      dsimp only at h9
      injection h9 with h10
      subst h10
      exact ⟨rfl, rfl⟩
  | some m =>
      rw [hm] at h9
      dsimp only at h9
      cases hv : validateSupplyNeeds m with
      | error e =>
          rw [hv] at h9
          exact Except.noConfusion h9
      | ok m2 =>
          rw [hv] at h9
          dsimp only at h9
          injection h9 with h10
          subst h10
          exact ⟨rfl, rfl⟩

/-- The successor state of a create-path submission. -/
theorem createReq_create_state (st : St) (p p' : SubmitPayload)
    (now : Micros)
    (hfr : findRestricted st p.phone now = none)
    (hfa : (if p.session_id ≠ "" then findActiveBySession st p.session_id
            else none) = none)
    (hv : validatePayload true p = .ok p') :
    createReq st p now =
      (.created st.nextId,
       { st with
         locations := st.locations ++
           [{ mkLoc st.nextId p' now with
                qr_code := some ("LOC-" ++ toString st.nextId) }],
         nextId := st.nextId + 1 }) := by
  unfold createReq
  rw [hfr]
  dsimp only
  rw [hfa, hv]

/-- C9: an existing request is found strictly by session token — a
submission whose token matches an active request updates that record
in place, creating no new row — and two fresh submissions with
distinct session tokens sharing one phone number (no cool-down on it)
create two separate, independently active request records. -/
theorem createReq_keyed_by_session (st : St) (p p1 p2 : SubmitPayload)
    (now now1 now2 : Micros) (loc : AnonLoc) (p' p1' p2' : SubmitPayload) :
    (findRestricted st p.phone now = none →
     p.session_id ≠ "" →
     findActiveBySession st p.session_id = some loc →
     validatePayload false p = .ok p' →
     getLoc st loc.id = some loc →
     (createReq st p now).1 = .updated loc.id ∧
     (createReq st p now).2.locations.length = st.locations.length ∧
     getLoc (createReq st p now).2 loc.id = some (applyUpdate loc p' now) ∧
     (∀ l ∈ st.locations, l.id ≠ loc.id →
        l ∈ (createReq st p now).2.locations)) ∧
    (p1.phone = p2.phone →
     p1.session_id ≠ "" → p2.session_id ≠ "" →
     p1.session_id ≠ p2.session_id →
     findRestricted st p1.phone now1 = none →
     findRestricted st p2.phone now2 = none →
     findActiveBySession st p1.session_id = none →
     findActiveBySession st p2.session_id = none →
     validatePayload true p1 = .ok p1' →
     validatePayload true p2 = .ok p2' →
     (createReq st p1 now1).1 = .created st.nextId ∧
     (createReq (createReq st p1 now1).2 p2 now2).1 =
       .created (st.nextId + 1) ∧
     (createReq (createReq st p1 now1).2 p2 now2).2.locations =
       st.locations ++
         [{ mkLoc st.nextId p1' now1 with
              qr_code := some ("LOC-" ++ toString st.nextId) },
          { mkLoc (st.nextId + 1) p2' now2 with
              qr_code := some ("LOC-" ++ toString (st.nextId + 1)) }] ∧
     (mkLoc st.nextId p1' now1).session_id = p1.session_id ∧
     (mkLoc (st.nextId + 1) p2' now2).session_id = p2.session_id ∧
     (mkLoc st.nextId p1' now1).phone =
       (mkLoc (st.nextId + 1) p2' now2).phone ∧
     (mkLoc st.nextId p1' now1).is_active = true ∧
     (mkLoc (st.nextId + 1) p2' now2).is_active = true) := by
  constructor
  · intro hfr hs hfa hval hget
    have hstep : createReq st p now =
        (.updated loc.id,
         { st with locations := st.locations.map (fun l =>
             if l.id = loc.id then applyUpdate l p' now else l) }) := by
      unfold createReq
      rw [hfr]
      dsimp only
      rw [if_pos hs, hfa, hval]
    rw [hstep]
    refine ⟨rfl, by simp, ?_, ?_⟩
    · unfold getLoc
      have hcomp :
          (fun l : AnonLoc => decide (l.id = loc.id)) ∘
            (fun l : AnonLoc =>
              if l.id = loc.id then applyUpdate l p' now else l) =
          (fun l : AnonLoc => decide (l.id = loc.id)) := by
        funext l
        by_cases hid : l.id = loc.id <;> simp [hid, applyUpdate]
      simp only [List.find?_map, hcomp]
      unfold getLoc at hget
      rw [hget]
      simp
    · intro l hmem hne
      refine List.mem_map.2 ⟨l, hmem, ?_⟩
      rw [if_neg hne]
  · intro hphone hs1 hs2 hne hfr1 hfr2 hfa1 hfa2 hv1 hv2
    have hf1 := validatePayload_ok_fields true p1 p1' hv1
    have hf2 := validatePayload_ok_fields true p2 p2' hv2
    have e1 := createReq_create_state st p1 p1' now1 hfr1
      (by rw [if_pos hs1, hfa1]) hv1
    set L1 : AnonLoc :=
      { mkLoc st.nextId p1' now1 with
          qr_code := some ("LOC-" ++ toString st.nextId) } with hL1
    have hL1rec : restricted p2.phone now2 L1 = false := by
      simp [restricted, hL1, mkLoc]
    have hL1sess : L1.session_id = p1.session_id := by
      simp [hL1, mkLoc, hf1.2]
    have hfr2' : findRestricted (createReq st p1 now1).2 p2.phone now2 =
        none := by
      rw [e1]
      unfold findRestricted
      dsimp only
      rw [List.find?_append]
      unfold findRestricted at hfr2
      rw [hfr2]
      simp [hL1rec]
    have hfa2' : findActiveBySession (createReq st p1 now1).2
        p2.session_id = none := by
      rw [e1]
      unfold findActiveBySession
      dsimp only
      rw [List.find?_append]
      unfold findActiveBySession at hfa2
      rw [hfa2]
      have : ¬ (L1.session_id = p2.session_id ∧ L1.is_active) := by
        intro hcon
        apply hne
        rw [← hL1sess]
        exact hcon.1
      simp only [Option.none_or, List.find?_cons, List.find?_nil]
      rw [decide_eq_false this]
    have e2 := createReq_create_state (createReq st p1 now1).2 p2 p2' now2
      hfr2' (by rw [if_pos hs2, hfa2']) hv2
    have hnext : (createReq st p1 now1).2.nextId = st.nextId + 1 := by
      rw [e1]
    refine ⟨by rw [e1], ?_, ?_, by simp [mkLoc, hf1.2], by simp [mkLoc, hf2.2],
      ?_, rfl, rfl⟩
    · rw [e2, hnext]
    · rw [e2, hnext, e1]
      dsimp only
      simp [List.append_assoc]
    · simp [mkLoc, hf1.1, hf2.1, hphone]

/-- Witness for `createReq_keyed_by_session`: a matching session token
updates request 1 in place, and sessions `sA`, `sB` with the same
phone create rows 2 and 3. -/
theorem createReq_keyed_by_session_witness :
    (createReq Sample.st1 Sample.pUpd 3000).1 = .updated 1 ∧
    (createReq Sample.st1 Sample.pUpd 3000).2.locations.length = 1 ∧
    (createReq Sample.st1 Sample.pA 100).1 = .created 2 ∧
    (createReq (createReq Sample.st1 Sample.pA 100).2 Sample.pB 200).1 =
      .created 3 := by
  have h := createReq_keyed_by_session Sample.st1 Sample.pUpd Sample.pA
    Sample.pB 3000 100 200 Sample.loc1 Sample.pUpd Sample.pA Sample.pB
  have h1 := h.1 rfl (by decide) rfl rfl rfl
  have h2 := h.2 rfl (by decide) (by decide) (by decide) rfl rfl rfl rfl
    rfl rfl
  exact ⟨h1.1, h1.2.1, h2.1, h2.2.1⟩

/-- A key-preserving row update keeps the pair-uniqueness invariant. -/
theorem pairwiseKey_map (l : List TrackRec) (f : TrackRec → TrackRec)
    (hf : ∀ t, (f t).pairKey = t.pairKey)
    (h : l.Pairwise (fun a b => a.pairKey ≠ b.pairKey)) :
    (l.map f).Pairwise (fun a b => a.pairKey ≠ b.pairKey) := by
  rw [List.pairwise_map]
  refine h.imp ?_
  intro a b hab
  rw [hf a, hf b]
  exact hab

/-- Appending a row with a fresh pair keeps the invariant. -/
theorem pairwiseKey_append (l : List TrackRec) (t : TrackRec)
    (h : l.Pairwise (fun a b => a.pairKey ≠ b.pairKey))
    (hnot : ∀ t0 ∈ l, t0.pairKey ≠ t.pairKey) :
    (l ++ [t]).Pairwise (fun a b => a.pairKey ≠ b.pairKey) := by
  rw [List.pairwise_append]
  refine ⟨h, List.pairwise_singleton _ _, ?_⟩
  intro a ha b hb
  rw [List.mem_singleton] at hb
  subst hb
  exact hnot a ha

/-- Under the invariant, a pair filter keeps at most one row. -/
theorem filter_key_length_le_one (l : List TrackRec) (k : Nat × Nat)
    (h : l.Pairwise (fun a b => a.pairKey ≠ b.pairKey)) :
    (l.filter (fun t => t.pairKey = k)).length ≤ 1 := by
  induction l with
  | nil => simp
  | cons a t ih =>
      rcases List.pairwise_cons.1 h with ⟨ha, ht⟩
      by_cases hk : a.pairKey = k
      · have hnil : t.filter (fun t0 => t0.pairKey = k) = [] := by
          rw [List.filter_eq_nil_iff]
          intro b hb
          simp only [decide_eq_true_eq]
          intro hbk
          exact ha b hb (by rw [hk, ← hbk])
        simp [hk, hnil]
      · simp only [List.filter_cons, hk, decide_eq_true_eq, if_false]
        simpa [hk] using ih ht

/-- `mark_on_the_way` preserves the tracking-pair uniqueness
invariant. -/
theorem tracksUnique_markOnTheWay (st : St) (uid lid : Nat) (now : Micros)
    (h : TracksUnique st) : TracksUnique (markOnTheWay st uid lid now).2 := by
  unfold markOnTheWay
  cases hv : findVisible st lid now with
  | none => exact h
  | some loc =>
      dsimp only
      by_cases hd : loc.donation_received
      · simp only [hd, if_true]
        exact h
      · simp only [hd, Bool.false_eq_true, if_false]
        cases hf : findTrack st loc.id uid with
        | some t0 =>
            dsimp only
            unfold TracksUnique
            rw [emit_tracks]
            dsimp only
            refine pairwiseKey_map _ _ ?_ h
            intro t
            by_cases hc : t.location_id = loc.id ∧ t.donator_id = uid <;>
              simp [TrackRec.pairKey, hc]
        | none =>
            dsimp only
            unfold TracksUnique
            rw [emit_tracks]
            dsimp only
            refine pairwiseKey_append _ _ h ?_
            intro t0 hmem hkey
            have hnc := List.find?_eq_none.1 hf t0 hmem
            apply hnc
            simp only [TrackRec.pairKey, Prod.mk.injEq] at hkey
            simp [hkey.1, hkey.2]

/-- `scan_qr_code` preserves the tracking-pair uniqueness invariant. -/
theorem tracksUnique_scanQr (st : St) (u : Nat) (q? : Option String)
    (now : Micros) (h : TracksUnique st) :
    TracksUnique (scanQr st u q? now).2 := by
  unfold scanQr
  cases q? with
  | none => exact h
  | some q =>
      dsimp only
      by_cases hq : q = ""
      · simp only [hq, if_pos rfl]
        exact h
      · rw [if_neg hq]
        cases hf : findActiveByQr st q with
        | none => exact h
        | some loc =>
            dsimp only
            by_cases hd : loc.donation_received
            · simp only [hd, if_true]
              exact h
            · simp only [hd, Bool.false_eq_true, if_false]
              unfold TracksUnique
              rw [emit_tracks]
              dsimp only
              refine pairwiseKey_map _ _ ?_ h
              intro t
              by_cases hc : t.location_id = loc.id ∧ t.donator_id = u <;>
                simp [TrackRec.pairKey, hc]

/-- The record-position endpoint preserves the tracking-pair
uniqueness invariant. -/
theorem tracksUnique_locationUpdate (st : St) (u : Nat)
    (lid : Option Nat) (lat lng acc : Option Rat) (now : Micros)
    (h : TracksUnique st) :
    TracksUnique (locationUpdate st u lid lat lng acc now).2 := by
  unfold locationUpdate
  split
  · exact h
  · dsimp only
    cases hf : findTrackActive st (lid.getD 0) u with
    | none => exact h
    | some t0 =>
        dsimp only
        unfold TracksUnique
        rw [emit_tracks]
        dsimp only
        refine pairwiseKey_map _ _ ?_ h
        intro t
        by_cases hc : t.location_id = lid.getD 0 ∧ t.donator_id = u ∧
            t.is_tracking = true <;>
          simp [TrackRec.pairKey, hc]

/-- `stop_tracking` preserves the tracking-pair uniqueness invariant. -/
theorem tracksUnique_stopTracking (st : St) (u : Nat) (lid : Option Nat)
    (h : TracksUnique st) : TracksUnique (stopTracking st u lid).2 := by
  unfold stopTracking
  split
  · exact h
  · dsimp only
    cases hf : findTrack st (lid.getD 0) u with
    | none => exact h
    | some t0 =>
        dsimp only
        unfold TracksUnique
        rw [emit_tracks]
        dsimp only
        refine pairwiseKey_map _ _ ?_ h
        intro t
        by_cases hc : t.location_id = lid.getD 0 ∧ t.donator_id = u <;>
          simp [TrackRec.pairKey, hc]

/-- Request submission never touches the tracking table. -/
theorem createReq_tracks (st : St) (p : SubmitPayload) (now : Micros) :
    (createReq st p now).2.tracks = st.tracks := by
  unfold createReq
  split
  · rfl
  · dsimp only
    split
    · split <;> rfl
    · split <;> rfl

/-- Rating submission never touches the tracking table. -/
theorem submitRating_tracks (st : St) (hid : Option Nat)
    (sid : Option String) (r : Option Int) (c : String)
    (sc : SuppliesConfirmed) (now : Micros) :
    (submitRating st hid sid r c sc now).2.tracks = st.tracks := by
  unfold submitRating
  split
  · rfl
  · dsimp only
    split
    · rfl
    · split
      · rfl
      · split
        · rfl
        · dsimp only
          split <;> rfl

/-- Request deletion cascades; the surviving tracking rows are a
sublist, so uniqueness is preserved. -/
theorem tracksUnique_deactivateReq (st : St) (lid : Nat) (now : Micros)
    (h : TracksUnique st) : TracksUnique (deactivateReq st lid now).2 := by
  unfold deactivateReq
  cases hv : findVisible st lid now with
  | none => exact h
  | some loc =>
      dsimp only
      unfold TracksUnique
      dsimp only
      exact List.Pairwise.sublist (List.filter_sublist _) h

/-- C4: `mark_on_the_way` upserts the (request, donator) tracking row —
creating it with `arrived=false, isTracking=true` when absent, and
otherwise resetting `arrived=false`, `isTracking=true` and refreshing
`markedAt` in place without inserting a duplicate — so the pair never
has more than one row, and the pair-uniqueness invariant is preserved
by every operation of the subsystem. -/
theorem markOnTheWay_upsert (st : St) (uid lid : Nat) (now : Micros)
    (loc : AnonLoc)
    (hv : findVisible st lid now = some loc)
    (hnr : loc.donation_received = false) :
    (findTrack st loc.id uid = none →
       (markOnTheWay st uid lid now).1 = .marked ∧
       (markOnTheWay st uid lid now).2.tracks =
         st.tracks ++ [{ location_id := loc.id, donator_id := uid,
                         marked_at := now, arrived := false,
                         is_tracking := true,
                         last_location_update := none }]) ∧
    (∀ t0, findTrack st loc.id uid = some t0 →
       (markOnTheWay st uid lid now).1 = .marked ∧
       (markOnTheWay st uid lid now).2.tracks.length = st.tracks.length ∧
       (∀ t ∈ (markOnTheWay st uid lid now).2.tracks,
          t.pairKey = (loc.id, uid) →
            t.arrived = false ∧ t.is_tracking = true ∧
              t.marked_at = now)) ∧
    (TracksUnique st →
       pairCount (markOnTheWay st uid lid now).2 loc.id uid ≤ 1) ∧
    (∀ st2 : St, TracksUnique st2 →
       (∀ uid2 lid2 now2,
          TracksUnique (markOnTheWay st2 uid2 lid2 now2).2) ∧
       (∀ u q now2, TracksUnique (scanQr st2 u q now2).2) ∧
       (∀ u lid2 lat lng acc now2,
          TracksUnique (locationUpdate st2 u lid2 lat lng acc now2).2) ∧
       (∀ u lid2, TracksUnique (stopTracking st2 u lid2).2) ∧
       (∀ p now2, TracksUnique (createReq st2 p now2).2) ∧
       (∀ hid sid r c sc now2,
          TracksUnique (submitRating st2 hid sid r c sc now2).2) ∧
       (∀ lid2 now2, TracksUnique (deactivateReq st2 lid2 now2).2)) := by
  refine ⟨?_, ?_, ?_, ?_⟩
  · intro hf
    unfold markOnTheWay
    rw [hv]
    dsimp only
    simp only [hnr, Bool.false_eq_true, if_false]
    rw [hf]
    dsimp only
    exact ⟨by trivial, by rw [emit_tracks]⟩
  · intro t0 hf
    unfold markOnTheWay
    rw [hv]
    dsimp only
    simp only [hnr, Bool.false_eq_true, if_false]
    rw [hf]
    dsimp only
    refine ⟨by trivial, ?_, ?_⟩
    · rw [emit_tracks]
      exact List.length_map _ _
    · intro t hmem hkey
      rw [emit_tracks] at hmem
      dsimp only at hmem
      rcases List.mem_map.1 hmem with ⟨t1, _, rfl⟩
      by_cases hc : t1.location_id = loc.id ∧ t1.donator_id = uid
      · rw [if_pos hc]
        exact ⟨rfl, rfl, rfl⟩
      · rw [if_neg hc] at hkey
        exfalso
        apply hc
        simp only [TrackRec.pairKey, Prod.mk.injEq] at hkey
        exact ⟨hkey.1, hkey.2⟩
  · intro hu
    exact filter_key_length_le_one _ _
      (tracksUnique_markOnTheWay st uid lid now hu)
  · intro st2 h2
    refine ⟨fun u2 l2 n2 => tracksUnique_markOnTheWay st2 u2 l2 n2 h2,
      fun u q n2 => tracksUnique_scanQr st2 u q n2 h2,
      fun u l2 la lg ac n2 =>
        tracksUnique_locationUpdate st2 u l2 la lg ac n2 h2,
      fun u l2 => tracksUnique_stopTracking st2 u l2 h2,
      ?_, ?_,
      fun l2 n2 => tracksUnique_deactivateReq st2 l2 n2 h2⟩
    · intro p n2
      unfold TracksUnique
      rw [createReq_tracks]
      exact h2
    · intro hid sid r c sc n2
      unfold TracksUnique
      rw [submitRating_tracks]
      exact h2

/-- Witness for `markOnTheWay_upsert`: donator 8 gets a fresh tracking
row on request 1, while donator 7's second mark keeps a single row and
the pair count stays at most one. -/
theorem markOnTheWay_upsert_witness :
    (markOnTheWay Sample.st1 8 1 2000).2.tracks =
      Sample.st1.tracks ++ [{ location_id := 1, donator_id := 8,
                              marked_at := 2000, arrived := false,
                              is_tracking := true,
                              last_location_update := none }] ∧
    (markOnTheWay Sample.st1 7 1 2000).2.tracks.length = 1 ∧
    pairCount (markOnTheWay Sample.st1 7 1 2000).2 1 7 ≤ 1 := by
  have h7 := markOnTheWay_upsert Sample.st1 7 1 2000 Sample.loc1 rfl rfl
  have h8 := markOnTheWay_upsert Sample.st1 8 1 2000 Sample.loc1 rfl rfl
  have hu : TracksUnique Sample.st1 := by
    unfold TracksUnique
    simp [Sample.st1]
  refine ⟨(h8.1 rfl).2, ?_, ?_⟩
  · exact (h7.2.1 Sample.track17 rfl).2.1
  · exact h7.2.2.1 hu

end DonationTracker
